import Mathlib

/-!
Shallow embedding of the asynchronous job-status polling, backoff and upload
hand-off logic of the frontend (files `useProcessingPoller.ts`,
`ProcessingQueue.tsx`, `useFileUpload.ts`, `queueUtils.ts`,
`usagestatsUtils.ts`).

Conventions of the embedding:
* JavaScript numbers that take part in the delay arithmetic are modelled as
  rationals (all values arising here are exactly representable as IEEE
  doubles, so the rational semantics coincides with the JavaScript one).
* `undefined`/missing JavaScript values are modelled with `Option`.
* The asynchronous outcome of an awaited HTTP request is passed to the
  embedded function as an explicit argument (its "oracle").
* Side effects that matter to the statements (registry membership, pending
  timers, toast messages, scheduled navigation) are part of the returned
  values; purely cosmetic effects (console logging, spinners) are dropped.
-/

/-- ASCII lower-casing of a character, as `String.prototype.toLowerCase`
acts on the ASCII range (the only characters occurring in the status
strings of this code base). -/
def lowerChar (c : Char) : Char :=
  if 65 ≤ c.toNat ∧ c.toNat ≤ 90 then Char.ofNat (c.toNat + 32) else c

/-- Model of JavaScript `s.toLowerCase()` on ASCII strings. -/
def toLowerCase (s : String) : String := String.mk (s.data.map lowerChar)

/-- The `DocumentStatus` union type of `processginQueueTypes.ts`:
`"Uploaded" | "Processing" | "Completed" | "Failed"`. -/
inductive DocumentStatus where
  | uploaded
  | processing
  | completed
  | failed
deriving DecidableEq, Repr

/-- The display string of a `DocumentStatus`, i.e. the TypeScript string
literal the constructor stands for. -/
def DocumentStatus.displayString : DocumentStatus → String
  | .uploaded => "Uploaded"
  | .processing => "Processing"
  | .completed => "Completed"
  | .failed => "Failed"

/-- The `QueueDocument` record of `processginQueueTypes.ts`. -/
structure QueueDocument where
  id : String
  name : String
  status : DocumentStatus
  uploadedAt : Option String := none
  file_type : Option String := none
deriving DecidableEq, Repr

/-- The objects passed to `setUploadResult` (a `type` tag and a user-facing
message). The initial value uses `type: null`, hence the `Option`. -/
structure UploadResult where
  type : Option String
  message : String
deriving DecidableEq, Repr

namespace ProcessingPoller

/-- The poll key of `pollProcessingStatus`: the template literal
combining documentId and taskId with a dash. -/
def pollKey (documentId taskId : String) : String :=
  documentId ++ "-" ++ taskId

/-- The constant `maxAttempts = 60` of `useProcessingPoller.ts`. -/
def maxAttempts : Nat := 60

/-- The constant `maxDelay = 30000` (max 30 seconds between requests). -/
def maxDelay : ℚ := 30000

/-- The module-global state of `useProcessingPoller.ts`: the `activePolls`
registry (a `Set<string>`, modelled as a duplicate-free list) together with
the pending `timeoutId` of the running poll, if any (modelled by the delay
it was scheduled with). -/
structure Registry where
  activePolls : List String
  pendingTimer : Option ℚ
deriving DecidableEq, Repr

/-- The local mutable variables of one `pollProcessingStatus` run:
`attempts` and `currentDelay`. -/
structure PollState where
  attempts : Nat
  currentDelay : ℚ
deriving DecidableEq, Repr

/-- The state a run starts with: `attempts = 0`, `currentDelay = 5000`. -/
def initialPollState : PollState := ⟨0, 5000⟩

/-- The response observed by one `checkStatus` request: a successful
`GET .../processing-status` carrying `res.data.data.processing_status`,
an error with HTTP status 429, or any other request error. -/
inductive PollResponse where
  | success (processingStatus : String)
  | err429
  | errOther
deriving DecidableEq, Repr

/-- What one `checkStatus` invocation does after handling its response:
either it scheduled the next `checkStatus` via `setTimeout` (carrying the
new local state and the delay used), or the run ended, optionally setting an
upload result and optionally scheduling a navigation `(delayMs, path)`. -/
inductive StepOutcome where
  | continuePolling (next : PollState)
  | stopped (result : Option UploadResult) (navigation : Option (ℚ × String))
deriving DecidableEq, Repr

/-- The value of one `checkStatus` invocation: the updated module-global
state and the control-flow outcome. -/
structure CheckResult where
  registry : Registry
  outcome : StepOutcome
deriving DecidableEq, Repr

/-- The `cleanup` closure of `useProcessingPoller.ts`: removes the run's key from
`activePolls` and clears the pending timer. -/
def cleanup (reg : Registry) (key : String) : Registry :=
  { activePolls := reg.activePolls.erase key, pendingTimer := none }

/-- One invocation of `checkStatus` (lines 37-107 of
`useProcessingPoller.ts`), parameterised by the response the awaited
request produced.  Mirrors the source branch by branch:
* `processing_status === "completed"`: success result, `cleanup`, navigation
  to the review page after 1500 ms;
* `processing_status === "failed"`: error result, `cleanup`;
* other status with `attempts++ < maxAttempts`: reset `currentDelay` to
  5000 and reschedule, else timeout result and `cleanup`;
* HTTP 429: `currentDelay = min(currentDelay * 2, maxDelay)`, reschedule if
  `attempts++ < maxAttempts`, else `cleanup` with no result;
* other errors: reschedule with `currentDelay = min(currentDelay * 1.5,
  maxDelay)` if `attempts++ < 3`, else error result and `cleanup`. -/
def checkStatus (reg : Registry) (key documentId : String) (s : PollState)
    (resp : PollResponse) : CheckResult :=
  match resp with
  | .success st =>
    if st = "completed" then
      { registry := cleanup reg key
        outcome := .stopped (some ⟨some "success", "AI analysis completed!"⟩)
          (some (1500, "/document/" ++ documentId ++ "/review")) }
    else if st = "failed" then
      { registry := cleanup reg key
        outcome := .stopped
          (some ⟨some "error", "Document uploaded but AI processing failed."⟩) none }
    else if s.attempts < maxAttempts then
      { registry := { reg with pendingTimer := some 5000 }
        outcome := .continuePolling ⟨s.attempts + 1, 5000⟩ }
    else
      { registry := cleanup reg key
        outcome := .stopped
          (some ⟨some "error", "Processing timeout. Please check back later."⟩) none }
  | .err429 =>
    let newDelay := min (s.currentDelay * 2) maxDelay
    if s.attempts < maxAttempts then
      { registry := { reg with pendingTimer := some newDelay }
        outcome := .continuePolling ⟨s.attempts + 1, newDelay⟩ }
    else
      { registry := cleanup reg key
        outcome := .stopped none none }
  | .errOther =>
    if s.attempts < 3 then
      let newDelay := min (s.currentDelay * (3 / 2)) maxDelay
      { registry := { reg with pendingTimer := some newDelay }
        outcome := .continuePolling ⟨s.attempts + 1, newDelay⟩ }
    else
      { registry := cleanup reg key
        outcome := .stopped
          (some ⟨some "error",
            "Unable to check processing status. Please refresh the page."⟩) none }

/-- The entry of `pollProcessingStatus` (lines 10-24): refuse when the key
is already registered, otherwise register it and start a run in the initial
state. -/
inductive PollStart where
  | alreadyPolling
  | started (reg : Registry) (init : PollState)
deriving DecidableEq, Repr

/-- The body of `pollProcessingStatus` up to the first `checkStatus` call: the dedup
check against `activePolls` and the registration of the key. -/
def pollProcessingStatus (reg : Registry) (documentId taskId : String) :
    PollStart :=
  let key := pollKey documentId taskId
  if key ∈ reg.activePolls then .alreadyPolling
  else .started { reg with activePolls := key :: reg.activePolls } initialPollState

/-- The number of status requests a run answers from a given stream of
responses: each consumed response is one answered request; the run stops
consuming once an invocation ends the run. -/
def runPoll (reg : Registry) (key documentId : String) (s : PollState) :
    List PollResponse → Nat
  | [] => 0
  | resp :: rest =>
    match checkStatus reg key documentId s resp with
    | ⟨reg', .continuePolling s'⟩ => 1 + runPoll reg' key documentId s' rest
    | ⟨_, .stopped _ _⟩ => 1

end ProcessingPoller

namespace ProcessingQueue

/-- The component state of `ProcessingQueue.tsx` that the fetch handler and
the adaptive-polling effect read and write: the `documents` list, the
`pollDelay` (started at 10000 ms) and the `isLoading` flag. -/
structure QueueState where
  documents : List QueueDocument
  pollDelay : ℚ
  isLoading : Bool
deriving DecidableEq, Repr

/-- The outcome of the awaited `fetchDocuments(token)` call inside
`handleFetchDocuments`: the formatted document list, or a thrown error
carrying `error.response?.status`. -/
inductive FetchDocsResult where
  | ok (docs : List QueueDocument)
  | httpError (status : Option Nat)
deriving DecidableEq, Repr

/-- The handler `handleFetchDocuments` of `ProcessingQueue.tsx` (lines 28-47): without
a token it returns at once; on success it stores the documents and resets
`pollDelay` to 10000; on a 429 error it doubles `pollDelay` capped at
300000 (5 minutes); other errors leave the state alone.  The `finally`
block clears `isLoading`. -/
def handleFetchDocuments (token : Option String) (st : QueueState)
    (res : FetchDocsResult) : QueueState :=
  match token with
  | none => st
  | some _ =>
    match res with
    | .ok docs => { st with documents := docs, pollDelay := 10000, isLoading := false }
    | .httpError status =>
      if status = some 429 then
        { st with pollDelay := min (st.pollDelay * 2) 300000, isLoading := false }
      else
        { st with isLoading := false }

/-- The body of the adaptive-polling `useEffect` (lines 70-81): it first
runs `clearPollTimer()`, discarding `prevTimer`, then schedules a fetch
after `pollDelay` exactly when some document has status `"Processing"` or
`"Uploaded"`.  The result is the new timer: the delay it was set with, or
`none` when nothing was scheduled. -/
def adaptivePollingEffect (_prevTimer : Option ℚ)
    (documents : List QueueDocument) (pollDelay : ℚ) : Option ℚ :=
  if documents.any fun doc =>
      doc.status == DocumentStatus.processing || doc.status == DocumentStatus.uploaded
  then some pollDelay
  else none

end ProcessingQueue

namespace FileUpload

/-- The outcome of the awaited `axios.post(.../documents/upload)` call in
`handleUpload`: a response with its HTTP status, the `res.data.processing`
field (carrying `task_id` when present) and `res.data.data?.document_id`,
or a thrown error. -/
inductive UploadResponse where
  | ok (status : Nat) (processingTaskId : Option String) (documentId : Option String)
  | threw
deriving DecidableEq, Repr

/-- What a `handleUpload` call does, as observable from outside: each
constructor records the `setUploadResult` value of that path together with
the follow-up action (starting the poller, or scheduling a navigation). -/
inductive UploadOutcome where
  | noFile
  | noRequest (result : UploadResult)
  | pollingStarted (result : UploadResult) (documentId : Option String) (taskId : String)
  | navigateScheduled (result : UploadResult) (delayMs : ℚ) (path : String)
  | failed (result : UploadResult)
deriving DecidableEq, Repr

/-- The handler `handleUpload` of `useFileUpload.ts` (lines 24-60): no file means an
early return; no token in localStorage means the authentication error with
no upload request; a 202 response with a truthy `processing` field starts
`pollProcessingStatus` with the returned ids; any other successful response
sets the success message and schedules navigation to the review page after
1500 ms; a throw sets the upload-failed error. -/
def handleUpload (hasFile : Bool) (token : Option String)
    (resp : UploadResponse) : UploadOutcome :=
  if !hasFile then .noFile
  else
    match token with
    | none =>
      .noRequest ⟨some "error", "Authentication required. Please log in to upload documents."⟩
    | some _ =>
      match resp with
      | .ok status processingTaskId documentId =>
        match processingTaskId with
        | some taskId =>
          if status = 202 then
            .pollingStarted ⟨some "processing", "AI analysis in progress..."⟩
              documentId taskId
          else
            .navigateScheduled ⟨some "success", "Document uploaded successfully!"⟩
              1500 ("/document/" ++ documentId.getD "undefined" ++ "/review")
        | none =>
          .navigateScheduled ⟨some "success", "Document uploaded successfully!"⟩
            1500 ("/document/" ++ documentId.getD "undefined" ++ "/review")
      | .threw => .failed ⟨some "error", "Upload failed. Try again."⟩

end FileUpload

namespace QueueUtils

/-- The function `mapApiStatusToDisplayStatus` of `queueUtils.ts` (lines 8-31).  The
argument is `Option`al because callers pass possibly-`undefined` values and
the function guards with `apiStatus?.toLowerCase()`. -/
def mapApiStatusToDisplayStatus (apiStatus : Option String) : DocumentStatus :=
  let status := apiStatus.map toLowerCase
  if status = some "uploaded" ∨ status = some "pending" then .uploaded
  else if status = some "processing" ∨ status = some "in_progress" ∨
      status = some "analyzing" then .processing
  else if status = some "completed" ∨ status = some "done" ∨
      status = some "success" ∨ status = some "ready" then .completed
  else if status = some "failed" ∨ status = some "error" ∨
      status = some "cancelled" ∨ status = some "canceled" then .failed
  else .uploaded

/-- The `catch` block of `fetchDocuments` in `queueUtils.ts` (lines 66-76):
the toast messages it emits, as a function of `error.response?.status`, and
the unconditional rethrow. -/
structure CatchOutcome where
  toasts : List String
  rethrown : Bool
deriving DecidableEq, Repr

/-- The error handling of `fetchDocuments`: a 401 shows the
authentication-expired toast, any other status except 429 shows the
failed-to-load toast, a 429 shows nothing; the error is always rethrown. -/
def fetchDocumentsCatch (status : Option Nat) : CatchOutcome :=
  { toasts :=
      if status = some 401 then ["Authentication expired. Please log in again."]
      else if status ≠ some 429 then ["Failed to load documents. Please try again."]
      else []
    rethrown := true }

end QueueUtils

namespace UsagestatsUtils

/-- The function `mapApiStatusToDisplayStatus` of `usagestatsUtils.ts` (lines 41-68).
Unlike its namesake in `queueUtils.ts` it returns plain strings, has extra
recognized spellings for `"Completed"`, and defaults to `"Other"`. -/
def mapApiStatusToDisplayStatus (apiStatus : Option String) : String :=
  let status := apiStatus.map toLowerCase
  if status = some "completed" ∨ status = some "complete" ∨ status = some "done" ∨
      status = some "finished" ∨ status = some "processed" ∨ status = some "ready" ∨
      status = some "success" ∨ status = some "successful" then "Completed"
  else if status = some "processing" ∨ status = some "in_progress" ∨
      status = some "analyzing" then "Processing"
  else if status = some "failed" ∨ status = some "error" ∨
      status = some "cancelled" ∨ status = some "canceled" then "Failed"
  else if status = some "uploaded" ∨ status = some "pending" then "Uploaded"
  else "Other"

/-- The lower-case spellings recognized by the `usagestatsUtils.ts` mapper;
a superset of those recognized by the `queueUtils.ts` mapper. -/
def recognizedStatuses : List String :=
  ["completed", "complete", "done", "finished", "processed", "ready",
   "success", "successful", "processing", "in_progress", "analyzing",
   "failed", "error", "cancelled", "canceled", "uploaded", "pending"]

end UsagestatsUtils

open ProcessingPoller in
/-- Helper: every `checkStatus` invocation either continues — which
requires the old `attempts` to be below `maxAttempts` and increments it by
one — or stops with the registry produced by `cleanup`. -/
theorem checkStatus_shape (reg : Registry) (key documentId : String)
    (s : PollState) (resp : PollResponse) :
    (∃ reg' s', checkStatus reg key documentId s resp = ⟨reg', .continuePolling s'⟩ ∧
      s.attempts < maxAttempts ∧ s'.attempts = s.attempts + 1) ∨
    (∃ r nav, checkStatus reg key documentId s resp = ⟨cleanup reg key, .stopped r nav⟩) := by
  cases resp with
  | success st =>
    by_cases h1 : st = "completed"
    · right
      exact ⟨some ⟨some "success", "AI analysis completed!"⟩,
        some (1500, "/document/" ++ documentId ++ "/review"), by simp [checkStatus, h1]⟩
    · by_cases h2 : st = "failed"
      · right
        exact ⟨some ⟨some "error", "Document uploaded but AI processing failed."⟩, none,
          by simp [checkStatus, h1, h2]⟩
      · by_cases h3 : s.attempts < maxAttempts
        · left
          exact ⟨{ activePolls := reg.activePolls, pendingTimer := some 5000 },
            ⟨s.attempts + 1, 5000⟩, by simp [checkStatus, h1, h2, h3], h3, rfl⟩
        · right
          exact ⟨some ⟨some "error", "Processing timeout. Please check back later."⟩, none,
            by simp [checkStatus, h1, h2, h3]⟩
  | err429 =>
    by_cases h3 : s.attempts < maxAttempts
    · left
      exact ⟨⟨reg.activePolls, some (min (s.currentDelay * 2) maxDelay)⟩,
        ⟨s.attempts + 1, min (s.currentDelay * 2) maxDelay⟩,
        by simp [checkStatus, h3], h3, rfl⟩
    · right
      exact ⟨none, none, by simp [checkStatus, h3]⟩
  | errOther =>
    by_cases h3 : s.attempts < 3
    · left
      refine ⟨⟨reg.activePolls, some (min (s.currentDelay * (3 / 2)) maxDelay)⟩,
        ⟨s.attempts + 1, min (s.currentDelay * (3 / 2)) maxDelay⟩,
        by simp [checkStatus, h3], ?_, rfl⟩
      have h60 : maxAttempts = 60 := rfl
      omega
    · right
      exact ⟨some ⟨some "error", "Unable to check processing status. Please refresh the page."⟩,
        none, by simp [checkStatus, h3]⟩

open ProcessingPoller in
/-- Helper: a continuation of `checkStatus` requires `attempts` below
`maxAttempts` and increments the shared counter by one. -/
theorem checkStatus_continue (reg : Registry) (key documentId : String)
    (s : PollState) (resp : PollResponse) (reg' : Registry) (s' : PollState)
    (h : checkStatus reg key documentId s resp = ⟨reg', .continuePolling s'⟩) :
    s.attempts < maxAttempts ∧ s'.attempts = s.attempts + 1 := by
  rcases checkStatus_shape reg key documentId s resp with
    ⟨reg2, s2, heq, hlt, hinc⟩ | ⟨r, nav, heq⟩
  · rw [h] at heq
    simp only [CheckResult.mk.injEq, StepOutcome.continuePolling.injEq] at heq
    rw [heq.2]
    exact ⟨hlt, hinc⟩
  · rw [h] at heq
    simp at heq

open ProcessingPoller in
/-- Helper: every terminating branch of `checkStatus` returns the registry
produced by `cleanup`. -/
theorem checkStatus_stopped_registry (reg : Registry) (key documentId : String)
    (s : PollState) (resp : PollResponse) (r : Option UploadResult)
    (nav : Option (ℚ × String))
    (h : (checkStatus reg key documentId s resp).outcome = .stopped r nav) :
    (checkStatus reg key documentId s resp).registry = cleanup reg key := by
  rcases checkStatus_shape reg key documentId s resp with
    ⟨reg2, s2, heq, hlt, hinc⟩ | ⟨r2, nav2, heq⟩
  · rw [heq] at h
    simp at h
  · rw [heq]

open ProcessingPoller in
/-- Helper: from a local state with `attempts = a ≤ maxAttempts`, a run
answers at most `maxAttempts + 1 - a` further requests. -/
theorem runPoll_le (key documentId : String) (responses : List PollResponse) :
    ∀ (reg : Registry) (s : PollState), s.attempts ≤ maxAttempts →
      runPoll reg key documentId s responses ≤ (maxAttempts + 1) - s.attempts := by
  induction responses with
  | nil =>
    intro reg s hs
    unfold runPoll
    omega
  | cons resp rest ih =>
    intro reg s hs
    unfold runPoll
    rcases hres : checkStatus reg key documentId s resp with ⟨reg', out⟩
    cases out with
    | continuePolling s' =>
      show 1 + runPoll reg' key documentId s' rest ≤ (maxAttempts + 1) - s.attempts
      have hinc := checkStatus_continue reg key documentId s resp reg' s' hres
      have hrec := ih reg' s' (by omega)
      omega
    | stopped r n =>
      show 1 ≤ (maxAttempts + 1) - s.attempts
      omega

open ProcessingPoller in
/-- C1: if the key combining documentId and taskId is already registered in
the module-global activePolls set, pollProcessingStatus returns immediately
(no status request, no second registration); when the key is absent and the
set is duplicate-free, the started poll registers the key exactly once and
keeps the set duplicate-free, so at most one active poll exists per key. -/
theorem poll_dedup_per_key (documentId taskId : String) :
    (∀ reg : Registry, pollKey documentId taskId ∈ reg.activePolls →
      pollProcessingStatus reg documentId taskId = .alreadyPolling) ∧
    (∀ reg : Registry, reg.activePolls.Nodup →
      ∀ reg' s₀, pollProcessingStatus reg documentId taskId = .started reg' s₀ →
        reg'.activePolls.count (pollKey documentId taskId) = 1 ∧
        reg'.activePolls.Nodup) := by
  constructor
  · intro reg hmem
    simp [pollProcessingStatus, hmem]
  · intro reg hnd reg' s₀ hst
    simp only [pollProcessingStatus] at hst
    split at hst
    · simp at hst
    · rename_i hmem
      simp only [PollStart.started.injEq] at hst
      obtain ⟨hreg, -⟩ := hst
      rw [← hreg]
      refine ⟨?_, List.nodup_cons.mpr ⟨hmem, hnd⟩⟩
      simp [List.count_cons, List.count_eq_zero.mpr hmem]

/-- Witness for C1 at concrete registries. -/
theorem poll_dedup_per_key_witness :
    ProcessingPoller.pollProcessingStatus ⟨["doc1-task1"], none⟩ "doc1" "task1" =
      ProcessingPoller.PollStart.alreadyPolling ∧
    (ProcessingPoller.pollKey "doc1" "task1" :: ["other"]).count
        (ProcessingPoller.pollKey "doc1" "task1") = 1 := by
  obtain ⟨h1, h2⟩ := poll_dedup_per_key "doc1" "task1"
  exact ⟨h1 ⟨["doc1-task1"], none⟩ (by decide),
    (h2 ⟨["other"], none⟩ (by decide) _ _ rfl).1⟩

open ProcessingPoller ProcessingQueue in
/-- C2: a 429 failure in pollProcessingStatus updates the delay before the
next attempt to min(2 x current delay, 30000), hence the inter-poll delay
never exceeds 30 seconds; a 429 failure in
ProcessingQueue.handleFetchDocuments updates the poll delay to
min(2 x previous delay, 300000), hence at most 5 minutes. -/
theorem rate_limit_backoff_capped (reg : Registry) (key documentId : String)
    (s : PollState) (hs : s.attempts < maxAttempts) (tok : String)
    (qs : QueueState) :
    (checkStatus reg key documentId s .err429).outcome =
      .continuePolling ⟨s.attempts + 1, min (s.currentDelay * 2) maxDelay⟩ ∧
    min (s.currentDelay * 2) maxDelay ≤ 30000 ∧
    (handleFetchDocuments (some tok) qs (.httpError (some 429))).pollDelay =
      min (qs.pollDelay * 2) 300000 ∧
    (handleFetchDocuments (some tok) qs (.httpError (some 429))).pollDelay ≤
      300000 := by
  refine ⟨by simp [checkStatus, hs], min_le_right _ _, by simp [handleFetchDocuments], ?_⟩
  simp [handleFetchDocuments]

/-- Witness for C2 at a concrete poll state and queue state. -/
theorem rate_limit_backoff_capped_witness :
    (0 : Nat) < ProcessingPoller.maxAttempts ∧
    ((ProcessingPoller.checkStatus ⟨["d-t"], none⟩ "d-t" "d" ⟨0, 5000⟩ .err429).outcome =
        .continuePolling ⟨0 + 1, min ((5000 : ℚ) * 2) ProcessingPoller.maxDelay⟩ ∧
      min ((5000 : ℚ) * 2) ProcessingPoller.maxDelay ≤ 30000 ∧
      (ProcessingQueue.handleFetchDocuments (some "tok") ⟨[], 10000, false⟩
          (.httpError (some 429))).pollDelay = min ((10000 : ℚ) * 2) 300000 ∧
      (ProcessingQueue.handleFetchDocuments (some "tok") ⟨[], 10000, false⟩
          (.httpError (some 429))).pollDelay ≤ 300000) :=
  ⟨by decide,
    rate_limit_backoff_capped ⟨["d-t"], none⟩ "d-t" "d" ⟨0, 5000⟩ (by decide)
      "tok" ⟨[], 10000, false⟩⟩

open ProcessingQueue in
/-- C3: the adaptive-polling effect of ProcessingQueue discards the
previous refresh timer (the result does not depend on it) and schedules a
new automatic fetch if and only if at least one document has display status
Processing or Uploaded; with every document Completed or Failed, or an
empty list, nothing is scheduled. -/
theorem auto_refresh_gating (t₁ t₂ : Option ℚ) (docs : List QueueDocument) (d : ℚ) :
    adaptivePollingEffect t₁ docs d = adaptivePollingEffect t₂ docs d ∧
    ((adaptivePollingEffect t₁ docs d).isSome = true ↔
      ∃ doc ∈ docs, doc.status = DocumentStatus.processing ∨
        doc.status = DocumentStatus.uploaded) ∧
    ((∀ doc ∈ docs, doc.status = DocumentStatus.completed ∨
        doc.status = DocumentStatus.failed) →
      adaptivePollingEffect t₁ docs d = none) ∧
    adaptivePollingEffect t₁ [] d = none := by
  refine ⟨rfl, ?_, ?_, rfl⟩
  · cases hany : docs.any fun doc =>
        doc.status == DocumentStatus.processing || doc.status == DocumentStatus.uploaded
    · simp only [adaptivePollingEffect, hany, Bool.false_eq_true, if_false,
        Option.isSome_none, Bool.false_eq_true, false_iff]
      rintro ⟨doc, hmem, hor⟩
      rw [List.any_eq_false] at hany
      have hnot := hany doc hmem
      rcases hor with h' | h' <;> rw [h'] at hnot <;> exact hnot (by decide)
    · simp only [adaptivePollingEffect, hany, if_true, Option.isSome_some, true_iff]
      rw [List.any_eq_true] at hany
      obtain ⟨doc, hmem, hp⟩ := hany
      simp only [Bool.or_eq_true, beq_iff_eq] at hp
      exact ⟨doc, hmem, hp⟩
  · intro hall
    have hfalse : (docs.any fun doc =>
        doc.status == DocumentStatus.processing ||
          doc.status == DocumentStatus.uploaded) = false := by
      rw [List.any_eq_false]
      intro doc hmem
      rcases hall doc hmem with h' | h' <;> rw [h'] <;> decide
    simp [adaptivePollingEffect, hfalse]

/-- Witness for C3 at a concrete one-document queue. -/
theorem auto_refresh_gating_witness :
    ((ProcessingQueue.adaptivePollingEffect (some 7) 
        [⟨"1", "a.pdf", DocumentStatus.completed, none, none⟩] 10000).isSome = true ↔
      ∃ doc ∈ [(⟨"1", "a.pdf", DocumentStatus.completed, none, none⟩ : QueueDocument)],
        doc.status = DocumentStatus.processing ∨
          doc.status = DocumentStatus.uploaded) ∧
    ProcessingQueue.adaptivePollingEffect (some 7)
        [⟨"1", "a.pdf", DocumentStatus.completed, none, none⟩] 10000 = none :=
  ⟨(auto_refresh_gating (some 7) none
      [⟨"1", "a.pdf", DocumentStatus.completed, none, none⟩] 10000).2.1,
   (auto_refresh_gating (some 7) none
      [⟨"1", "a.pdf", DocumentStatus.completed, none, none⟩] 10000).2.2.1
      (by decide)⟩

open ProcessingPoller in
/-- C4: a pollProcessingStatus step stops exactly on the terminal reported
statuses: "completed" sets the success result and schedules navigation to
the review page after 1500 ms, "failed" sets the error result; any other
reported status continues polling while the attempt limit is not hit. -/
theorem poller_terminal_statuses (reg : Registry) (key documentId : String)
    (s : PollState) (st : String) :
    (checkStatus reg key documentId s (.success "completed")).outcome =
      .stopped (some ⟨some "success", "AI analysis completed!"⟩)
        (some (1500, "/document/" ++ documentId ++ "/review")) ∧
    (checkStatus reg key documentId s (.success "failed")).outcome =
      .stopped (some ⟨some "error", "Document uploaded but AI processing failed."⟩)
        none ∧
    (st ≠ "completed" → st ≠ "failed" → s.attempts < maxAttempts →
      (checkStatus reg key documentId s (.success st)).outcome =
        .continuePolling ⟨s.attempts + 1, 5000⟩) := by
  refine ⟨rfl, rfl, ?_⟩
  intro h1 h2 h3
  simp [checkStatus, h1, h2, h3]

/-- Witness for C4 with the non-terminal status "pending". -/
theorem poller_terminal_statuses_witness :
    (ProcessingPoller.checkStatus ⟨["d-t"], none⟩ "d-t" "d" ⟨0, 5000⟩
        (.success "completed")).outcome =
      .stopped (some ⟨some "success", "AI analysis completed!"⟩)
        (some (1500, "/document/" ++ "d" ++ "/review")) ∧
    (ProcessingPoller.checkStatus ⟨["d-t"], none⟩ "d-t" "d" ⟨0, 5000⟩
        (.success "pending")).outcome =
      .continuePolling ⟨0 + 1, 5000⟩ := by
  obtain ⟨h1, -, h3⟩ :=
    poller_terminal_statuses ⟨["d-t"], none⟩ "d-t" "d" ⟨0, 5000⟩ "pending"
  exact ⟨h1, h3 (by decide) (by decide) (by decide)⟩

open ProcessingPoller ProcessingQueue in
/-- C5: whenever a successful status request leads to further polling, the
scheduled delay is the base 5000 ms regardless of any accumulated backoff;
a successful handleFetchDocuments resets the queue poll delay to the base
10000 ms. -/
theorem delay_reset_on_success (reg : Registry) (key documentId : String)
    (s : PollState) (st : String) (s' : PollState)
    (h : (checkStatus reg key documentId s (.success st)).outcome =
      .continuePolling s')
    (tok : String) (qs : QueueState) (docs : List QueueDocument) :
    s'.currentDelay = 5000 ∧
    (handleFetchDocuments (some tok) qs (.ok docs)).pollDelay = 10000 := by
  refine ⟨?_, rfl⟩
  by_cases h1 : st = "completed"
  · simp [checkStatus, h1] at h
  · by_cases h2 : st = "failed"
    · simp [checkStatus, h1, h2] at h
    · by_cases h3 : s.attempts < maxAttempts
      · simp only [checkStatus, if_neg h1, if_neg h2, if_pos h3,
          StepOutcome.continuePolling.injEq] at h
        rw [← h]
      · simp [checkStatus, h1, h2, h3] at h

/-- Witness for C5: a run that accumulated backoff (delay 20000) resets to
5000 on a successful pending response. -/
theorem delay_reset_on_success_witness :
    (⟨1, 5000⟩ : ProcessingPoller.PollState).currentDelay = 5000 ∧
    (ProcessingQueue.handleFetchDocuments (some "tok") ⟨[], 160000, true⟩
        (.ok [])).pollDelay = 10000 :=
  delay_reset_on_success ⟨["d-t"], none⟩ "d-t" "d" ⟨0, 20000⟩ "pending"
    ⟨1, 5000⟩ rfl "tok" ⟨[], 160000, true⟩ []

open ProcessingPoller in
/-- C6: maxAttempts is 60 and a run answers at most 61 status requests; the
shared attempts counter is incremented by one on every continuation path;
a non-429 error with the counter already at 3 ends the run with the
refresh-page error; on the success path, reaching the attempt limit with a
non-terminal status ends the run with the timeout error. -/
theorem poller_request_bound (reg : Registry) (key documentId : String) :
    maxAttempts = 60 ∧
    (∀ responses : List PollResponse,
      runPoll reg key documentId initialPollState responses ≤ 61) ∧
    (∀ (s : PollState) (resp : PollResponse) (reg' : Registry) (s' : PollState),
      checkStatus reg key documentId s resp = ⟨reg', .continuePolling s'⟩ →
      s'.attempts = s.attempts + 1) ∧
    (∀ s : PollState, 3 ≤ s.attempts →
      (checkStatus reg key documentId s .errOther).outcome =
        .stopped (some ⟨some "error",
          "Unable to check processing status. Please refresh the page."⟩) none) ∧
    (∀ s : PollState, maxAttempts ≤ s.attempts →
      ∀ st, st ≠ "completed" → st ≠ "failed" →
        (checkStatus reg key documentId s (.success st)).outcome =
          .stopped (some ⟨some "error",
            "Processing timeout. Please check back later."⟩) none) := by
  refine ⟨rfl, ?_, ?_, ?_, ?_⟩
  · intro responses
    have hb := runPoll_le key documentId responses reg initialPollState (by decide)
    have h60 : maxAttempts = 60 := rfl
    have h0 : initialPollState.attempts = 0 := rfl
    omega
  · intro s resp reg' s' h
    exact (checkStatus_continue reg key documentId s resp reg' s' h).2
  · intro s h3
    have hn : ¬ s.attempts < 3 := by omega
    simp [checkStatus, hn]
  · intro s hmax st h1 h2
    have hn : ¬ s.attempts < maxAttempts := by omega
    simp [checkStatus, h1, h2, hn]

/-- Witness for C6 on a concrete response stream and concrete states at the
attempt limits. -/
theorem poller_request_bound_witness :
    ProcessingPoller.runPoll ⟨["d-t"], none⟩ "d-t" "d"
        ProcessingPoller.initialPollState
        [.err429, .errOther, .success "completed"] ≤ 61 ∧
    (⟨1, 5000⟩ : ProcessingPoller.PollState).attempts =
      (⟨0, 9000⟩ : ProcessingPoller.PollState).attempts + 1 ∧
    (ProcessingPoller.checkStatus ⟨["d-t"], none⟩ "d-t" "d" ⟨3, 5000⟩
        .errOther).outcome =
      .stopped (some ⟨some "error",
        "Unable to check processing status. Please refresh the page."⟩) none ∧
    (ProcessingPoller.checkStatus ⟨["d-t"], none⟩ "d-t" "d" ⟨60, 5000⟩
        (.success "pending")).outcome =
      .stopped (some ⟨some "error",
        "Processing timeout. Please check back later."⟩) none := by
  obtain ⟨-, h1, h2, h3, h4⟩ := poller_request_bound ⟨["d-t"], none⟩ "d-t" "d"
  exact ⟨h1 _,
    h2 ⟨0, 9000⟩ (.success "pending") ⟨["d-t"], some 5000⟩ ⟨1, 5000⟩ rfl,
    h3 ⟨3, 5000⟩ (by decide),
    h4 ⟨60, 5000⟩ (by decide) "pending" (by decide) (by decide)⟩

open FileUpload in
/-- C7: handleUpload yields the authentication error (without any request)
when no token is stored; starts status polling with the returned ids on a
202 response with a processing field; otherwise reports upload success with
navigation to the review page scheduled after 1500 ms; and reports the
upload-failed error when the request throws. -/
theorem upload_handoff (tok : String) :
    (∀ resp : UploadResponse, handleUpload true none resp =
      .noRequest ⟨some "error",
        "Authentication required. Please log in to upload documents."⟩) ∧
    (∀ (taskId : String) (docId : Option String),
      handleUpload true (some tok) (.ok 202 (some taskId) docId) =
        .pollingStarted ⟨some "processing", "AI analysis in progress..."⟩
          docId taskId) ∧
    (∀ (status : Nat) (processingTaskId docId : Option String),
      ¬(status = 202 ∧ processingTaskId.isSome = true) →
      handleUpload true (some tok) (.ok status processingTaskId docId) =
        .navigateScheduled ⟨some "success", "Document uploaded successfully!"⟩
          1500 ("/document/" ++ docId.getD "undefined" ++ "/review")) ∧
    handleUpload true (some tok) .threw =
      .failed ⟨some "error", "Upload failed. Try again."⟩ := by
  refine ⟨fun resp => rfl, fun taskId docId => rfl, ?_, rfl⟩
  intro status processingTaskId docId h
  cases processingTaskId with
  | none => simp [handleUpload]
  | some t =>
    have hs : ¬ status = 202 := fun he => h ⟨he, rfl⟩
    simp [handleUpload, hs]

/-- Witness for C7 at concrete upload responses. -/
theorem upload_handoff_witness :
    FileUpload.handleUpload true none .threw =
      .noRequest ⟨some "error",
        "Authentication required. Please log in to upload documents."⟩ ∧
    FileUpload.handleUpload true (some "tok") (.ok 202 (some "task1") (some "doc1")) =
      .pollingStarted ⟨some "processing", "AI analysis in progress..."⟩
        (some "doc1") "task1" ∧
    FileUpload.handleUpload true (some "tok") (.ok 200 none (some "doc1")) =
      .navigateScheduled ⟨some "success", "Document uploaded successfully!"⟩
        1500 ("/document/" ++ (some "doc1").getD "undefined" ++ "/review") ∧
    FileUpload.handleUpload true (some "tok") .threw =
      .failed ⟨some "error", "Upload failed. Try again."⟩ := by
  obtain ⟨h1, h2, h3, h4⟩ := upload_handoff "tok"
  exact ⟨h1 .threw, h2 "task1" (some "doc1"),
    h3 200 none (some "doc1") (by decide), h4⟩

open QueueUtils in
/-- C8: the fetchDocuments catch block always rethrows; it shows the
authentication-expired toast exactly when the response status is 401, the
failed-to-load toast for every other failure whose status is not 429, and
no toast at all on a 429. -/
theorem fetchDocuments_error_reporting :
    (∀ status : Option Nat, (fetchDocumentsCatch status).rethrown = true) ∧
    (∀ status : Option Nat,
      "Authentication expired. Please log in again." ∈
          (fetchDocumentsCatch status).toasts ↔ status = some 401) ∧
    (∀ status : Option Nat, status ≠ some 401 → status ≠ some 429 →
      (fetchDocumentsCatch status).toasts =
        ["Failed to load documents. Please try again."]) ∧
    (fetchDocumentsCatch (some 429)).toasts = [] := by
  refine ⟨fun _ => rfl, ?_, ?_, rfl⟩
  · intro status
    by_cases h1 : status = some 401
    · simp [fetchDocumentsCatch, h1]
    · by_cases h2 : status = some 429
      · simp [fetchDocumentsCatch, h1, h2]
      · simp only [fetchDocumentsCatch, if_neg h1, if_pos h2, List.mem_singleton]
        constructor
        · intro hmem
          exact absurd hmem (by decide)
        · intro he
          exact absurd he h1
  · intro status h1 h2
    simp only [fetchDocumentsCatch, if_neg h1, if_pos h2]

/-- Witness for C8 at the three kinds of failure status. -/
theorem fetchDocuments_error_reporting_witness :
    ("Authentication expired. Please log in again." ∈
        (QueueUtils.fetchDocumentsCatch (some 401)).toasts ↔
      (some 401 : Option Nat) = some 401) ∧
    (QueueUtils.fetchDocumentsCatch (some 500)).toasts =
      ["Failed to load documents. Please try again."] ∧
    (QueueUtils.fetchDocumentsCatch (some 429)).toasts = [] := by
  obtain ⟨-, h2, h3, h4⟩ := fetchDocuments_error_reporting
  exact ⟨h2 (some 401), h3 (some 500) (by decide) (by decide), h4⟩

open ProcessingPoller in
/-- C9: every terminating step of a poll run hands back the registry
produced by cleanup: the run's key is erased from activePolls (hence absent,
for a duplicate-free registry) and the pending timer is cleared, so a
subsequent pollProcessingStatus call whose key equals the removed key
starts a fresh poll. -/
theorem cleanup_on_every_termination (reg : Registry) (key documentId : String)
    (s : PollState) (resp : PollResponse) (r : Option UploadResult)
    (nav : Option (ℚ × String)) (hnd : reg.activePolls.Nodup)
    (hstop : (checkStatus reg key documentId s resp).outcome = .stopped r nav) :
    (checkStatus reg key documentId s resp).registry =
      ⟨reg.activePolls.erase key, none⟩ ∧
    key ∉ (checkStatus reg key documentId s resp).registry.activePolls ∧
    (∀ documentId2 taskId2, pollKey documentId2 taskId2 = key →
      pollProcessingStatus (checkStatus reg key documentId s resp).registry
          documentId2 taskId2 =
        .started ⟨key :: reg.activePolls.erase key, none⟩ initialPollState) := by
  have hreg := checkStatus_stopped_registry reg key documentId s resp r nav hstop
  have hkey : key ∉ reg.activePolls.erase key := fun hmem =>
    ((List.Nodup.mem_erase_iff hnd).mp hmem).1 rfl
  refine ⟨hreg, ?_, ?_⟩
  · rw [hreg]
    exact hkey
  · intro documentId2 taskId2 hk
    rw [hreg]
    simp only [pollProcessingStatus, hk, cleanup]
    rw [if_neg hkey]

/-- Witness for C9: a run over a singleton registry that ends on a failed
status leaves the registry empty. -/
theorem cleanup_on_every_termination_witness :
    (ProcessingPoller.checkStatus ⟨["a-b"], some 5000⟩ "a-b" "a" ⟨0, 5000⟩
        (.success "failed")).registry =
      ⟨(["a-b"] : List String).erase "a-b", none⟩ ∧
    "a-b" ∉ (ProcessingPoller.checkStatus ⟨["a-b"], some 5000⟩ "a-b" "a"
        ⟨0, 5000⟩ (.success "failed")).registry.activePolls := by
  obtain ⟨h1, h2, -⟩ := cleanup_on_every_termination ⟨["a-b"], some 5000⟩
    "a-b" "a" ⟨0, 5000⟩ (.success "failed")
    (some ⟨some "error", "Document uploaded but AI processing failed."⟩) none
    (by decide) rfl
  exact ⟨h1, h2⟩

/-- C10: the two mapApiStatusToDisplayStatus functions are total but differ:
on every status string outside the recognized spellings (and on undefined
input) the queueUtils one defaults to Uploaded while the usagestatsUtils one
defaults to "Other"; and the spellings complete, finished, processed and
successful map to "Completed" in usagestatsUtils but fall through to the
default Uploaded in queueUtils. -/
theorem status_mappers_divergence :
    (∀ s : String, toLowerCase s ∉ UsagestatsUtils.recognizedStatuses →
      QueueUtils.mapApiStatusToDisplayStatus (some s) = DocumentStatus.uploaded ∧
      UsagestatsUtils.mapApiStatusToDisplayStatus (some s) = "Other") ∧
    (QueueUtils.mapApiStatusToDisplayStatus none = DocumentStatus.uploaded ∧
      UsagestatsUtils.mapApiStatusToDisplayStatus none = "Other") ∧
    (∀ s ∈ (["complete", "finished", "processed", "successful"] : List String),
      UsagestatsUtils.mapApiStatusToDisplayStatus (some s) = "Completed" ∧
      QueueUtils.mapApiStatusToDisplayStatus (some s) = DocumentStatus.uploaded) ∧
    (∃ s : Option String,
      (QueueUtils.mapApiStatusToDisplayStatus s).displayString ≠
        UsagestatsUtils.mapApiStatusToDisplayStatus s) := by
  refine ⟨?_, ⟨rfl, rfl⟩, by decide, ⟨none, by decide⟩⟩
  intro s hs
  have hlit : ∀ t, t ∈ UsagestatsUtils.recognizedStatuses →
      ¬ (some (toLowerCase s) = some t) := by
    intro t ht he
    injection he with he'
    exact hs (he' ▸ ht)
  constructor
  · simp only [QueueUtils.mapApiStatusToDisplayStatus, Option.map_some']
    rw [if_neg (by rintro (h | h) <;> exact hlit _ (by decide) h)]
    rw [if_neg (by rintro (h | h | h) <;> exact hlit _ (by decide) h)]
    rw [if_neg (by rintro (h | h | h | h) <;> exact hlit _ (by decide) h)]
    rw [if_neg (by rintro (h | h | h | h) <;> exact hlit _ (by decide) h)]
  · simp only [UsagestatsUtils.mapApiStatusToDisplayStatus, Option.map_some']
    rw [if_neg (by rintro (h | h | h | h | h | h | h | h) <;> exact hlit _ (by decide) h)]
    rw [if_neg (by rintro (h | h | h) <;> exact hlit _ (by decide) h)]
    rw [if_neg (by rintro (h | h | h | h) <;> exact hlit _ (by decide) h)]
    rw [if_neg (by rintro (h | h) <;> exact hlit _ (by decide) h)]

/-- Witness for C10 at the unrecognized spelling archived and the
usagestats-only spelling finished. -/
theorem status_mappers_divergence_witness :
    (QueueUtils.mapApiStatusToDisplayStatus (some "archived") =
        DocumentStatus.uploaded ∧
      UsagestatsUtils.mapApiStatusToDisplayStatus (some "archived") = "Other") ∧
    (UsagestatsUtils.mapApiStatusToDisplayStatus (some "finished") = "Completed" ∧
      QueueUtils.mapApiStatusToDisplayStatus (some "finished") =
        DocumentStatus.uploaded) := by
  obtain ⟨h1, -, h3, -⟩ := status_mappers_divergence
  exact ⟨h1 "archived" (by decide), h3 "finished" (by decide)⟩
